import Mathlib

/-!
Shallow embedding of the seat-inventory and revenue core of the
track-ticket-trailblazer railway booking application.

Sources embedded here:
- the SQL trigger/stored-procedure layer (`decrement`, `increment`,
  `update_revenue_on_payment`, `update_revenue_on_refund`,
  `update_train_seats`);
- the service layer in `src/services/trainService.ts`
  (`createBooking`, `cancelBooking`, `getAdminData`).

Modelling conventions:
- money amounts are exact rationals (the JS literal `0.9` is read as
  `9/10`; every concrete amount used below is exactly representable as a
  binary double, so the arithmetic facts proved here agree with the
  JS evaluation);
- SQL `integer` columns are `Int` (trigger arithmetic in
  `update_train_seats` is unguarded, so values below zero are possible
  and must be representable);
- nullable SQL columns are `Option`; SQL three-valued comparison against
  NULL is `false` in a WHERE clause, which the `Option` matches below
  reproduce;
- row ids / PNRs are server-generated strings, modelled by a counter
  `nextId` threaded through the database state;
- the random seat number of `createBooking` is an external input,
  modelled as a seat-supply function `Nat → String`;
- a thrown supabase/postgrest error is `SbError`, a typed value
  carrying a human-readable message.
-/

/-- Train row: `total_seats` and `available_seats` are SQL integers. -/
structure Train where
  train_id : String
  total_seats : Int
  available_seats : Int
  deriving DecidableEq, Repr

/-- Fare row; the SQL column `class` is spelled `fare_class` (Lean keyword). -/
structure Fare where
  fare_id : String
  train_id : String
  fare_class : String
  fare_amount : ℚ
  deriving DecidableEq, Repr

/-- Passenger row. -/
structure Passenger where
  passenger_id : String
  name : String
  age : Nat
  gender : String
  contact : String
  deriving DecidableEq, Repr

/-- Booking row; `booking_status` is the raw string the triggers compare
against (`"Confirmed"`, `"Cancelled"`). -/
structure Booking where
  pnr : String
  passenger_id : String
  train_id : String
  fare_id : String
  fare_class : String
  seat_no : String
  booking_status : String
  deriving DecidableEq, Repr

/-- Payment row. -/
structure Payment where
  pnr : String
  amount : ℚ
  payment_method : String
  status : String
  deriving DecidableEq, Repr

/-- Cancellation row. -/
structure Cancellation where
  pnr : String
  refund_amount : ℚ
  status : String
  deriving DecidableEq, Repr

/-- Admin singleton row; `total_revenue` is nullable. -/
structure AdminRow where
  username : String
  password : String
  total_revenue : Option ℚ
  deriving DecidableEq, Repr

/-- Database state. The admin table is kept as the singleton the
application maintains (`Option` = empty vs one row). -/
structure DB where
  trains : List Train
  fares : List Fare
  passengers : List Passenger
  bookings : List Booking
  payments : List Payment
  cancellations : List Cancellation
  admin : Option AdminRow
  nextId : Nat
  deriving DecidableEq, Repr

/-- Trigger operation: an INSERT of a new row, or an UPDATE carrying the
OLD row image. -/
inductive RowOp (ρ : Type) where
  | insertRow
  | updateRow (old : ρ)
  deriving DecidableEq, Repr

/-- SQL function `public.decrement(row_id, value)` acting on the matched
train row: if `available_seats ≥ value` subtract and return the new
value, otherwise clamp to 0 and return 0.  Total: never fails. -/
def decrement (t : Train) (value : Int) : Train × Int :=
  if t.available_seats ≥ value then
    ({ t with available_seats := t.available_seats - value }, t.available_seats - value)
  else
    ({ t with available_seats := 0 }, 0)

/-- SQL function `public.increment(row_id, value)` acting on the matched
train row: add if the result stays within `total_seats`, otherwise clamp
to `total_seats`. -/
def increment (t : Train) (value : Int) : Train × Int :=
  if t.available_seats + value ≤ t.total_seats then
    ({ t with available_seats := t.available_seats + value }, t.available_seats + value)
  else
    ({ t with available_seats := t.total_seats }, t.total_seats)

/-- SQL `UPDATE train SET available_seats = available_seats + d WHERE
train_id = tid` (unguarded arithmetic, as in `update_train_seats`). -/
def applySeatUpdate (tid : String) (d : Int) (trains : List Train) : List Train :=
  trains.map fun t =>
    if t.train_id = tid then { t with available_seats := t.available_seats + d } else t

/-- SQL trigger `public.update_train_seats` on booking writes:
INSERT with status Confirmed decrements the train's seats by 1 (raw
`available_seats - 1`, not via `decrement`); UPDATE non-Confirmed →
Confirmed decrements by 1; UPDATE Confirmed → Cancelled increments by 1;
every other write leaves the train table untouched. -/
def update_train_seats (op : RowOp Booking) (newRow : Booking) (trains : List Train) :
    List Train :=
  match op with
  | .insertRow =>
      if newRow.booking_status = "Confirmed" then
        applySeatUpdate newRow.train_id (-1) trains
      else trains
  | .updateRow oldRow =>
      if oldRow.booking_status ≠ "Confirmed" ∧ newRow.booking_status = "Confirmed" then
        applySeatUpdate newRow.train_id (-1) trains
      else if oldRow.booking_status = "Confirmed" ∧ newRow.booking_status = "Cancelled" then
        applySeatUpdate newRow.train_id 1 trains
      else trains

/-- SQL `UPDATE admin SET total_revenue = total_revenue - amt WHERE
total_revenue >= amt`: the guarded revenue reversal shared by the payment
and refund triggers.  A NULL balance or an absent row makes the WHERE
clause fail, so the statement is a no-op. -/
def reverseRevenue (amt : ℚ) (admin : Option AdminRow) : Option AdminRow :=
  match admin with
  | none => none
  | some a =>
      match a.total_revenue with
      | none => some a
      | some v => if v ≥ amt then some { a with total_revenue := some (v - amt) } else some a

/-- SQL `UPDATE admin SET total_revenue = total_revenue + amt`, with the
lazy `INSERT INTO admin ... VALUES ('admin','admin123', amt)` when the
admin table is empty (the `IF EXISTS (SELECT 1 FROM admin)` branch).
NULL + amt stays NULL, as in SQL. -/
def accrueRevenue (amt : ℚ) (admin : Option AdminRow) : Option AdminRow :=
  match admin with
  | some a => some { a with total_revenue := a.total_revenue.map (· + amt) }
  | none => some { username := "admin", password := "admin123", total_revenue := some amt }

/-- SQL trigger `public.update_revenue_on_payment` on payment writes:
accrue `NEW.amount` on INSERT with status Successful or an UPDATE into
Successful; reverse `OLD.amount` (guarded) on an UPDATE out of
Successful; otherwise no effect. -/
def update_revenue_on_payment (op : RowOp Payment) (newRow : Payment)
    (admin : Option AdminRow) : Option AdminRow :=
  match op with
  | .insertRow =>
      if newRow.status = "Successful" then accrueRevenue newRow.amount admin else admin
  | .updateRow oldRow =>
      if newRow.status = "Successful" ∧ oldRow.status ≠ "Successful" then
        accrueRevenue newRow.amount admin
      else if oldRow.status = "Successful" ∧ newRow.status ≠ "Successful" then
        reverseRevenue oldRow.amount admin
      else admin

/-- SQL trigger `public.update_revenue_on_refund` on cancellation INSERT:
reverse `NEW.refund_amount` (guarded) when the new record's status is
Processed. -/
def update_revenue_on_refund (newRow : Cancellation) (admin : Option AdminRow) :
    Option AdminRow :=
  if newRow.status = "Processed" then reverseRevenue newRow.refund_amount admin else admin

/-- Insert one booking row; the `update_train_seats` trigger fires on the
INSERT. -/
def insertBooking (b : Booking) (st : DB) : DB :=
  { st with
    bookings := st.bookings ++ [b]
    trains := update_train_seats .insertRow b st.trains }

/-- Row-by-row effect of `UPDATE booking SET booking_status = newStatus
WHERE pnr = pnr0`: each matched row is rewritten and the
`update_train_seats` trigger fires once per matched row with its OLD
image. -/
def updateBookingRows (pnr0 newStatus : String) :
    List Booking → List Train → List Booking × List Train
  | [], trains => ([], trains)
  | b :: rest, trains =>
      if b.pnr = pnr0 then
        let b2 := { b with booking_status := newStatus }
        let trains2 := update_train_seats (.updateRow b) b2 trains
        let r := updateBookingRows pnr0 newStatus rest trains2
        (b2 :: r.1, r.2)
      else
        let r := updateBookingRows pnr0 newStatus rest trains
        (b :: r.1, r.2)

/-- Whole-database view of the booking-status UPDATE statement. -/
def updateBookingStatus (pnr0 newStatus : String) (st : DB) : DB :=
  let r := updateBookingRows pnr0 newStatus st.bookings st.trains
  { st with bookings := r.1, trains := r.2 }

/-- Typed error thrown by a failed database call, carrying the
human-readable message the service surfaces. -/
structure SbError where
  message : String
  deriving DecidableEq, Repr

/-- Service function `cancelBooking(pnr, amount)` of
`trainService.ts`.  Step 1 updates every booking row with this PNR to
status Cancelled (no error when zero rows match); step 2 computes
`refundAmount = amount * 0.9` and inserts one cancellation record with
status Processed, on which `update_revenue_on_refund` fires.  The
`updateFailure` / `insertFailure` parameters inject the database failures
of step 1 / step 2; on a failure the service re-throws the original
typed error and performs no compensating write. -/
def cancelBooking (pnr0 : String) (amount : ℚ)
    (updateFailure insertFailure : Option SbError) (st : DB) :
    DB × Except SbError Unit :=
  match updateFailure with
  | some e => (st, Except.error e)
  | none =>
      let st1 := updateBookingStatus pnr0 "Cancelled" st
      match insertFailure with
      | some e => (st1, Except.error e)
      | none =>
          let refundAmount := amount * (9 / 10)
          let c : Cancellation := { pnr := pnr0, refund_amount := refundAmount, status := "Processed" }
          let st2 := { st1 with
            cancellations := st1.cancellations ++ [c]
            admin := update_revenue_on_refund c st1.admin }
          (st2, Except.ok ())

/-- Service function `getAdminData` of `trainService.ts`: `.single()` on
the admin table throws when no row exists; otherwise
`data.total_revenue || 0` maps a NULL revenue to 0. -/
def getAdminData (st : DB) : Except SbError ℚ :=
  match st.admin with
  | none => Except.error { message := "Failed to fetch admin data: no rows returned" }
  | some a => Except.ok (a.total_revenue.getD 0)

/-- Passenger details supplied by the caller of `createBooking`. -/
structure PassengerInput where
  name : String
  age : Nat
  gender : String
  contact : String
  deriving DecidableEq, Repr

/-- Step 1 of `createBooking`: insert one passenger row per detail record
and collect the generated `passenger_id`s, in order. -/
def insertPassengers : List PassengerInput → DB → DB × List String
  | [], st => (st, [])
  | p :: rest, st =>
      let pid := toString st.nextId
      let row : Passenger :=
        { passenger_id := pid, name := p.name, age := p.age
          gender := p.gender, contact := p.contact }
      let st1 := { st with passengers := st.passengers ++ [row], nextId := st.nextId + 1 }
      let r := insertPassengers rest st1
      (r.1, pid :: r.2)

/-- Step 2 of `createBooking`: resolve the fare for (train, class) with
`.single()` (which errors unless exactly one row matches); on that error
fall back to `.limit(1).single()` over the train's fares, which errors
only when the train has no fare at all. -/
def resolveFare (trainId fareClass : String) (st : DB) : Except SbError String :=
  match st.fares.filter (fun f => f.train_id == trainId && f.fare_class == fareClass) with
  | [f] => Except.ok f.fare_id
  | _ =>
      match st.fares.filter (fun f => f.train_id == trainId) with
      | [] => Except.error { message := "JSON object requested, multiple (or no) rows returned" }
      | f :: _ => Except.ok f.fare_id

/-- Step 3 of `createBooking`: one booking row per passenger id, each
with the resolved fare, a seat number built from the class initial and
the random supply, and status Confirmed (firing `update_train_seats` on
each INSERT).  Returns the created PNRs in order. -/
def insertBookingRows (trainId fareId fareClass : String) (seatGen : Nat → String) :
    List String → Nat → DB → DB × List String
  | [], _, st => (st, [])
  | pid :: rest, i, st =>
      let pnrNew := "PNR" ++ toString st.nextId
      let b : Booking :=
        { pnr := pnrNew, passenger_id := pid, train_id := trainId
          fare_id := fareId, fare_class := fareClass
          seat_no := fareClass.take 1 ++ seatGen i
          booking_status := "Confirmed" }
      let st1 := insertBooking b st
      let st2 := { st1 with nextId := st1.nextId + 1 }
      let r := insertBookingRows trainId fareId fareClass seatGen rest (i + 1) st2
      (r.1, pnrNew :: r.2)

/-- Service function `createBooking` of `trainService.ts`: insert the
passengers, resolve the fare, insert one Confirmed booking row per
passenger, then insert exactly one payment row — referencing only the
first created PNR, for the full total amount, with status Successful
(firing `update_revenue_on_payment`) — and return the first created PNR
(the TS `firstPnr`, initialised to the empty string). -/
def createBooking (passengerData : List PassengerInput)
    (trainId fareClass paymentMethod : String) (totalAmount : ℚ)
    (seatGen : Nat → String) (st : DB) : Except SbError (DB × String) :=
  let r1 := insertPassengers passengerData st
  match resolveFare trainId fareClass r1.1 with
  | Except.error e => Except.error e
  | Except.ok fareId =>
      let r3 := insertBookingRows trainId fareId fareClass seatGen r1.2 0 r1.1
      let firstPnr := r3.2.headD ""
      let pay : Payment :=
        { pnr := firstPnr, amount := totalAmount
          payment_method := paymentMethod, status := "Successful" }
      let st4 := { r3.1 with
        payments := r3.1.payments ++ [pay]
        admin := update_revenue_on_payment .insertRow pay r3.1.admin }
      Except.ok (st4, firstPnr)

/-- Claim invariant: `0 ≤ available_seats ≤ total_seats` for a train row. -/
def seatInvariant (t : Train) : Prop :=
  0 ≤ t.available_seats ∧ t.available_seats ≤ t.total_seats

/-- C7: `decrement(trainId, n)` with `n ≥ 0` never fails: when the
current `available_seats` is at least `n` it stores and returns
`current − n`, otherwise it stores 0 and returns 0. -/
theorem decrement_clamps_at_zero (t : Train) (n : Int) (_hn : 0 ≤ n) :
    (n ≤ t.available_seats →
      decrement t n
        = ({ t with available_seats := t.available_seats - n }, t.available_seats - n)) ∧
    (t.available_seats < n →
      decrement t n = ({ t with available_seats := 0 }, 0)) := by
  constructor
  · intro h
    simp [decrement, h]
  · intro h
    simp [decrement, not_le.mpr h]

/-- Witness for C7 at a concrete train: both the subtract branch and the
clamp branch. -/
theorem decrement_clamps_at_zero_witness :
    decrement { train_id := "T1", total_seats := 5, available_seats := 3 } 2
        = ({ train_id := "T1", total_seats := 5, available_seats := 1 }, 1) ∧
    decrement { train_id := "T1", total_seats := 5, available_seats := 1 } 2
        = ({ train_id := "T1", total_seats := 5, available_seats := 0 }, 0) := by
  have h1 :=
    (decrement_clamps_at_zero { train_id := "T1", total_seats := 5, available_seats := 3 } 2
      (by decide)).1 (by decide)
  have h2 :=
    (decrement_clamps_at_zero { train_id := "T1", total_seats := 5, available_seats := 1 } 2
      (by decide)).2 (by decide)
  exact ⟨by simpa using h1, by simpa using h2⟩

/-- C1 counterexample: inserting a Confirmed booking on a train whose
`available_seats` is already 0 does not clamp — `update_train_seats`
subtracts 1 unguarded (it never calls `decrement`), driving
`available_seats` to −1 and breaking `0 ≤ available_seats`. -/
theorem update_train_seats_underflow_counterexample :
    ((update_train_seats .insertRow
        { pnr := "B3", passenger_id := "p3", train_id := "T1", fare_id := "F1"
          fare_class := "AC 2 Tier", seat_no := "A10", booking_status := "Confirmed" }
        [{ train_id := "T1", total_seats := 2, available_seats := 0 }]).map
          Train.available_seats = [-1]) ∧
    ((update_train_seats .insertRow
        { pnr := "B3", passenger_id := "p3", train_id := "T1", fare_id := "F1"
          fare_class := "AC 2 Tier", seat_no := "A10", booking_status := "Confirmed" }
        [{ train_id := "T1", total_seats := 2, available_seats := 0 }]).map
          Train.available_seats ≠ [0]) := by
  constructor
  · decide
  · decide

/-- C1 amended: the ledger functions `decrement` and `increment` do
preserve `0 ≤ available_seats ≤ total_seats` for every `n ≥ 0`, but the
booking trigger `update_train_seats` applies an unguarded `±1`: on a
train with `available_seats = 0`, inserting a Confirmed booking leaves
`available_seats = −1`, so the invariant is not preserved by booking
writes. -/
theorem seat_invariant_ledger_only (t : Train) (n : Int) (hn : 0 ≤ n)
    (hInv : seatInvariant t) :
    seatInvariant (decrement t n).1 ∧ seatInvariant (increment t n).1 ∧
    (∀ b : Booking, b.train_id = t.train_id → b.booking_status = "Confirmed" →
      t.available_seats = 0 →
      (update_train_seats .insertRow b [t]).map Train.available_seats = [-1]) := by
  obtain ⟨h0, hT⟩ := hInv
  refine ⟨?_, ?_, ?_⟩
  · by_cases h : n ≤ t.available_seats
    · simp only [decrement, ge_iff_le, if_pos h, seatInvariant]
      omega
    · simp only [decrement, ge_iff_le, if_neg h, seatInvariant]
      omega
  · by_cases h : t.available_seats + n ≤ t.total_seats
    · simp only [increment, if_pos h, seatInvariant]
      omega
    · simp only [increment, if_neg h, seatInvariant]
      omega
  · intro b hb hconf h0seats
    simp [update_train_seats, hconf, applySeatUpdate, hb, h0seats]

/-- Witness for C1's amended statement at a train with 0 available
seats out of 2. -/
theorem seat_invariant_ledger_only_witness :
    seatInvariant (decrement { train_id := "T1", total_seats := 2, available_seats := 0 } 1).1 ∧
    seatInvariant (increment { train_id := "T1", total_seats := 2, available_seats := 0 } 1).1 ∧
    (update_train_seats .insertRow
        { pnr := "B3", passenger_id := "p3", train_id := "T1", fare_id := "F1"
          fare_class := "AC 2 Tier", seat_no := "A10", booking_status := "Confirmed" }
        [{ train_id := "T1", total_seats := 2, available_seats := 0 }]).map
          Train.available_seats = [-1] := by
  have h := seat_invariant_ledger_only
    { train_id := "T1", total_seats := 2, available_seats := 0 } 1
    (by decide) (by constructor <;> decide)
  exact ⟨h.1, h.2.1, h.2.2
    { pnr := "B3", passenger_id := "p3", train_id := "T1", fare_id := "F1"
      fare_class := "AC 2 Tier", seat_no := "A10", booking_status := "Confirmed" }
    rfl rfl rfl⟩

/-- C10: `getAdminData` fails with a typed error when the admin table is
empty (no lazy revenue row has been created yet) instead of returning 0,
and returns 0 when the row exists with a NULL `total_revenue`. -/
theorem getAdminData_empty_errors_null_zero (st : DB) :
    (st.admin = none → ∃ e : SbError, getAdminData st = Except.error e) ∧
    (∀ a : AdminRow, st.admin = some a → a.total_revenue = none →
      getAdminData st = Except.ok 0) := by
  constructor
  · intro h
    refine ⟨{ message := "Failed to fetch admin data: no rows returned" }, ?_⟩
    simp [getAdminData, h]
  · intro a ha hn
    simp [getAdminData, ha, hn]

/-- Witness for C10: an empty admin table errors; a NULL revenue row
yields 0. -/
theorem getAdminData_empty_errors_null_zero_witness :
    (∃ e : SbError, getAdminData
        { trains := [], fares := [], passengers := [], bookings := [], payments := []
          cancellations := [], admin := none, nextId := 0 } = Except.error e) ∧
    getAdminData
        { trains := [], fares := [], passengers := [], bookings := [], payments := []
          cancellations := [],
          admin := some { username := "admin", password := "admin123", total_revenue := none }
          nextId := 0 } = Except.ok 0 := by
  constructor
  · exact (getAdminData_empty_errors_null_zero
      { trains := [], fares := [], passengers := [], bookings := [], payments := []
        cancellations := [], admin := none, nextId := 0 }).1 rfl
  · exact (getAdminData_empty_errors_null_zero
      { trains := [], fares := [], passengers := [], bookings := [], payments := []
        cancellations := [],
        admin := some { username := "admin", password := "admin123", total_revenue := none }
        nextId := 0 }).2 _ rfl rfl

/-- C2 counterexample: `cancelBooking` stores `refund_amount = A × 0.9`
with no rounding.  At `A = 5` the stored refund is `4.5`, while
`round (0.9 × 5) = 5`, so `refund_amount = round (0.9 × A)` fails. -/
theorem cancelBooking_refund_not_rounded :
    ((cancelBooking "P1" 5 none none
        { trains := [], fares := [], passengers := [], bookings := [], payments := []
          cancellations := [], admin := none, nextId := 0 }).1.cancellations.map
        Cancellation.refund_amount = [9 / 2]) ∧
    (round ((9 : ℚ) / 10 * 5) : ℤ) = 5 ∧
    ((9 : ℚ) / 2) ≠ (((5 : ℤ) : ℚ)) := by
  refine ⟨?_, by norm_num [round_eq], by norm_num⟩
  simp [cancelBooking, updateBookingStatus, updateBookingRows]
  norm_num

/-- C2 amended: for every PNR and paid amount `A`, the non-failing
`cancelBooking(pnr, A)` appends exactly one Cancellation record, with
status Processed and `refund_amount = 0.9 × A` exactly (no rounding),
and returns successfully. -/
theorem cancelBooking_one_processed_record (pnr0 : String) (amount : ℚ) (st : DB) :
    ((cancelBooking pnr0 amount none none st).1.cancellations
      = st.cancellations
          ++ [{ pnr := pnr0, refund_amount := amount * (9 / 10), status := "Processed" }]) ∧
    (cancelBooking pnr0 amount none none st).2 = Except.ok () := by
  constructor
  · simp [cancelBooking, updateBookingStatus]
  · simp [cancelBooking]

/-- One write observed by the Revenue Ledger's triggers: a payment INSERT
or UPDATE (handled by `update_revenue_on_payment`), or a cancellation
INSERT (handled by `update_revenue_on_refund`). -/
inductive RevenueWrite where
  | payWrite (op : RowOp Payment) (newRow : Payment)
  | refundWrite (newRow : Cancellation)
  deriving DecidableEq, Repr

/-- Effect of one revenue-relevant write on the admin table. -/
def applyRevenueWrite (admin : Option AdminRow) (w : RevenueWrite) : Option AdminRow :=
  match w with
  | .payWrite op p => update_revenue_on_payment op p admin
  | .refundWrite c => update_revenue_on_refund c admin

/-- Effect of a sequence of revenue-relevant writes on the admin table. -/
def applyRevenueWrites (ws : List RevenueWrite) (admin : Option AdminRow) : Option AdminRow :=
  ws.foldl applyRevenueWrite admin

/-- Claim invariant for C4: `total_revenue` is non-negative wherever it
holds a value. -/
def adminNonneg : Option AdminRow → Prop
  | none => True
  | some a =>
      match a.total_revenue with
      | none => True
      | some v => 0 ≤ v

/-- Every amount a revenue write carries (including the OLD image an
UPDATE reverses) is non-negative. -/
def writeAmountsNonneg : RevenueWrite → Prop
  | .payWrite .insertRow p => 0 ≤ p.amount
  | .payWrite (.updateRow oldRow) p => 0 ≤ p.amount ∧ 0 ≤ oldRow.amount
  | .refundWrite c => 0 ≤ c.refund_amount

theorem accrueRevenue_nonneg (amt : ℚ) (a : Option AdminRow) (ha : adminNonneg a)
    (hamt : 0 ≤ amt) : adminNonneg (accrueRevenue amt a) := by
  match a with
  | none => simpa [accrueRevenue, adminNonneg] using hamt
  | some ⟨u, p, none⟩ => simp [accrueRevenue, adminNonneg]
  | some ⟨u, p, some v⟩ =>
      simp only [accrueRevenue, adminNonneg, Option.map] at ha ⊢
      exact add_nonneg ha hamt

theorem reverseRevenue_nonneg (amt : ℚ) (a : Option AdminRow) (ha : adminNonneg a) :
    adminNonneg (reverseRevenue amt a) := by
  match a with
  | none => simp [reverseRevenue, adminNonneg]
  | some ⟨u, p, none⟩ => simp [reverseRevenue, adminNonneg]
  | some ⟨u, p, some v⟩ =>
      simp only [reverseRevenue, adminNonneg] at ha ⊢
      by_cases h : v ≥ amt
      · simp only [if_pos h, adminNonneg]
        linarith
      · simp only [if_neg h, adminNonneg]
        exact ha

theorem applyRevenueWrite_nonneg (a : Option AdminRow) (w : RevenueWrite)
    (ha : adminNonneg a) (hw : writeAmountsNonneg w) :
    adminNonneg (applyRevenueWrite a w) := by
  match w with
  | .payWrite .insertRow p =>
      simp only [applyRevenueWrite, update_revenue_on_payment]
      split
      · exact accrueRevenue_nonneg _ _ ha hw
      · exact ha
  | .payWrite (.updateRow oldRow) p =>
      obtain ⟨h1, h2⟩ := hw
      simp only [applyRevenueWrite, update_revenue_on_payment]
      split
      · exact accrueRevenue_nonneg _ _ ha h1
      · split
        · exact reverseRevenue_nonneg _ _ ha
        · exact ha
  | .refundWrite c =>
      simp only [applyRevenueWrite, update_revenue_on_refund]
      split
      · exact reverseRevenue_nonneg _ _ ha
      · exact ha

theorem applyRevenueWrites_nonneg (ws : List RevenueWrite) (a : Option AdminRow)
    (ha : adminNonneg a) (hws : ∀ w ∈ ws, writeAmountsNonneg w) :
    adminNonneg (applyRevenueWrites ws a) := by
  induction ws generalizing a with
  | nil => exact ha
  | cons w rest ih =>
      exact ih _ (applyRevenueWrite_nonneg a w ha (hws w (by simp)))
        (fun w' hw' => hws w' (by simp [hw']))

/-- C4: starting from a non-negative (or absent, or NULL) revenue
balance, no sequence of payment/refund writes with non-negative amounts
drives `total_revenue` negative; and a reversal — a payment updated out
of Successful, or a Processed cancellation insert — whose amount exceeds
the current balance leaves the admin row exactly unchanged (a no-op, not
an error). -/
theorem total_revenue_nonneg_and_reversal_noop (ws : List RevenueWrite)
    (a0 : Option AdminRow) (ha : adminNonneg a0)
    (hws : ∀ w ∈ ws, writeAmountsNonneg w) :
    adminNonneg (applyRevenueWrites ws a0) ∧
    (∀ (oldP newP : Payment) (a : AdminRow) (v : ℚ),
      oldP.status = "Successful" → newP.status ≠ "Successful" →
      a.total_revenue = some v → v < oldP.amount →
      update_revenue_on_payment (.updateRow oldP) newP (some a) = some a) ∧
    (∀ (c : Cancellation) (a : AdminRow) (v : ℚ),
      c.status = "Processed" → a.total_revenue = some v → v < c.refund_amount →
      update_revenue_on_refund c (some a) = some a) := by
  refine ⟨applyRevenueWrites_nonneg ws a0 ha hws, ?_, ?_⟩
  · intro oldP newP a v hOld hNew hv hlt
    have hns : ¬ (newP.status = "Successful" ∧ oldP.status ≠ "Successful") := by
      intro h
      exact h.2 hOld
    have hrev : oldP.status = "Successful" ∧ newP.status ≠ "Successful" := ⟨hOld, hNew⟩
    simp only [update_revenue_on_payment, if_neg hns, if_pos hrev]
    simp [reverseRevenue, hv, not_le.mpr hlt]
  · intro c a v hc hv hlt
    simp only [update_revenue_on_refund, if_pos hc]
    simp [reverseRevenue, hv, not_le.mpr hlt]

/-- Witness for C4: a successful payment of 100 into an empty admin
table, then an oversized refund of 200 (no-op), stays non-negative; an
oversized payment reversal and an oversized refund both leave a concrete
balance of 50 unchanged. -/
theorem total_revenue_nonneg_and_reversal_noop_witness :
    adminNonneg (applyRevenueWrites
      [RevenueWrite.payWrite .insertRow
          { pnr := "P1", amount := 100, payment_method := "card", status := "Successful" },
        RevenueWrite.refundWrite { pnr := "P1", refund_amount := 200, status := "Processed" }]
      none) ∧
    update_revenue_on_payment
        (.updateRow { pnr := "P1", amount := 100, payment_method := "card", status := "Successful" })
        { pnr := "P1", amount := 100, payment_method := "card", status := "Failed" }
        (some { username := "admin", password := "admin123", total_revenue := some 50 })
      = some { username := "admin", password := "admin123", total_revenue := some 50 } ∧
    update_revenue_on_refund { pnr := "P1", refund_amount := 200, status := "Processed" }
        (some { username := "admin", password := "admin123", total_revenue := some 50 })
      = some { username := "admin", password := "admin123", total_revenue := some 50 } := by
  have h := total_revenue_nonneg_and_reversal_noop
    [RevenueWrite.payWrite .insertRow
        { pnr := "P1", amount := 100, payment_method := "card", status := "Successful" },
      RevenueWrite.refundWrite { pnr := "P1", refund_amount := 200, status := "Processed" }]
    none trivial (by
      intro w hw
      simp only [List.mem_cons, List.mem_singleton] at hw
      rcases hw with h1 | h1 | h1
      · subst h1
        norm_num [writeAmountsNonneg]
      · subst h1
        norm_num [writeAmountsNonneg]
      · cases h1)
  refine ⟨h.1, ?_, ?_⟩
  · exact h.2.1 _ _ _ 50 rfl (by decide) rfl (by norm_num)
  · exact h.2.2 _ _ 50 rfl rfl (by norm_num)

/-- Seat delta of one booking-status rewrite as `update_train_seats`
computes it: −1 into Confirmed, +1 for Confirmed→Cancelled, else 0. -/
def stepDelta (prev s : String) : Int :=
  if prev ≠ "Confirmed" ∧ s = "Confirmed" then -1
  else if prev = "Confirmed" ∧ s = "Cancelled" then 1
  else 0

/-- Lifecycle of one booking row after its INSERT: each element of
`updates` rewrites `booking_status`, firing `update_train_seats` with the
OLD image each time. -/
def applyStatusUpdates (b : Booking) : String → List String → List Train → List Train
  | _, [], trains => trains
  | prev, s :: rest, trains =>
      applyStatusUpdates b s rest
        (update_train_seats (.updateRow { b with booking_status := prev })
          { b with booking_status := s } trains)

/-- Full lifecycle of one booking row: INSERT with status `init` (firing
the trigger), then the given status rewrites. -/
def applyBookingLifecycle (b : Booking) (init : String) (updates : List String)
    (trains : List Train) : List Train :=
  applyStatusUpdates b init updates
    (update_train_seats .insertRow { b with booking_status := init } trains)

/-- Spec-side count (from the claim's words): status-change edges whose
target is Confirmed, along the rewrite sequence that starts at `prev`. -/
def intoConfirmedUpdates : String → List String → Nat
  | _, [] => 0
  | prev, s :: rest =>
      (if prev ≠ "Confirmed" ∧ s = "Confirmed" then 1 else 0) + intoConfirmedUpdates s rest

/-- Spec-side count (from the claim's words): edges into Confirmed over
the whole lifecycle — an insert as Confirmed counts as one edge. -/
def intoConfirmedCount (init : String) (updates : List String) : Nat :=
  (if init = "Confirmed" then 1 else 0) + intoConfirmedUpdates init updates

/-- Spec-side count (from the claim's words): Confirmed→Cancelled edges
along the rewrite sequence that starts at `prev`. -/
def confirmedToCancelledCount : String → List String → Nat
  | _, [] => 0
  | prev, s :: rest =>
      (if prev = "Confirmed" ∧ s = "Cancelled" then 1 else 0) + confirmedToCancelledCount s rest

theorem applySeatUpdate_singleton (t : Train) (tid : String) (d : Int)
    (h : t.train_id = tid) :
    applySeatUpdate tid d [t] = [{ t with available_seats := t.available_seats + d }] := by
  simp [applySeatUpdate, h]

theorem update_step_singleton (b : Booking) (t : Train) (prev s : String)
    (ht : t.train_id = b.train_id) :
    update_train_seats (.updateRow { b with booking_status := prev })
        { b with booking_status := s } [t]
      = [{ t with available_seats := t.available_seats + stepDelta prev s }] := by
  by_cases h1 : prev ≠ "Confirmed" ∧ s = "Confirmed"
  · simp only [update_train_seats, stepDelta, if_pos h1]
    exact applySeatUpdate_singleton t b.train_id (-1) ht
  · by_cases h2 : prev = "Confirmed" ∧ s = "Cancelled"
    · simp only [update_train_seats, stepDelta, if_neg h1, if_pos h2]
      exact applySeatUpdate_singleton t b.train_id 1 ht
    · simp only [update_train_seats, stepDelta, if_neg h1, if_neg h2, add_zero]

theorem applyStatusUpdates_singleton (b : Booking) (updates : List String) :
    ∀ (prev : String) (t : Train), t.train_id = b.train_id →
      applyStatusUpdates b prev updates [t]
        = [{ t with available_seats :=
              t.available_seats - intoConfirmedUpdates prev updates
                + confirmedToCancelledCount prev updates }] := by
  induction updates with
  | nil =>
      intro prev t ht
      simp [applyStatusUpdates, intoConfirmedUpdates, confirmedToCancelledCount]
  | cons s rest ih =>
      intro prev t ht
      simp only [applyStatusUpdates]
      rw [update_step_singleton b t prev s ht,
        ih s { t with available_seats := t.available_seats + stepDelta prev s } ht]
      simp only [List.cons.injEq, and_true, Train.mk.injEq, true_and]
      simp only [intoConfirmedUpdates, confirmedToCancelledCount, stepDelta]
      split_ifs with h1 h2 <;> push_cast <;> first | omega | exact absurd h2.1 h1.1

/-- C3: over the whole lifecycle of one booking row — an INSERT followed
by any sequence of `booking_status` rewrites, with `update_train_seats`
firing on each write — the train's `available_seats` ends at its initial
value minus the number of edges into Confirmed (insert as Confirmed, or
rewrite from non-Confirmed to Confirmed) plus the number of
Confirmed→Cancelled edges, each edge counted exactly once; and rewriting
a row with an unchanged `booking_status` has no inventory effect at
all. -/
theorem net_seat_effect_edge_counting (b : Booking) (t : Train) (init : String)
    (updates : List String) (ht : t.train_id = b.train_id) :
    ((applyBookingLifecycle b init updates [t]).map Train.available_seats
      = [t.available_seats - intoConfirmedCount init updates
          + confirmedToCancelledCount init updates]) ∧
    (∀ (b2 : Booking) (s : String) (trains : List Train),
      update_train_seats (.updateRow { b2 with booking_status := s })
        { b2 with booking_status := s } trains = trains) := by
  constructor
  · simp only [applyBookingLifecycle]
    by_cases hc : init = "Confirmed"
    · rw [show update_train_seats .insertRow { b with booking_status := init } [t]
            = [{ t with available_seats := t.available_seats + (-1) }] from by
          simp [update_train_seats, hc, applySeatUpdate, ht]]
      rw [applyStatusUpdates_singleton b updates init
        { t with available_seats := t.available_seats + (-1) } ht]
      simp only [List.map_cons, List.map_nil, List.cons.injEq, and_true]
      simp only [intoConfirmedCount, hc, if_pos]
      push_cast
      omega
    · rw [show update_train_seats .insertRow { b with booking_status := init } [t] = [t] from by
          simp [update_train_seats, hc]]
      rw [applyStatusUpdates_singleton b updates init t ht]
      simp only [List.map_cons, List.map_nil, List.cons.injEq, and_true]
      simp only [intoConfirmedCount, hc, if_neg, ite_false]
      push_cast
      omega
  · intro b2 s trains
    by_cases hs : s = "Confirmed" <;> simp [update_train_seats, hs]

/-- Witness for C3: insert Confirmed, cancel, re-confirm on a train with
5 seats — two edges into Confirmed, one Confirmed→Cancelled edge, net
effect 5 − 2 + 1 = 4 — and a concrete unchanged-status rewrite that
leaves the train table untouched. -/
theorem net_seat_effect_edge_counting_witness :
    ((applyBookingLifecycle
        { pnr := "B1", passenger_id := "p1", train_id := "T1", fare_id := "F1"
          fare_class := "Sleeper", seat_no := "S10", booking_status := "Confirmed" }
        "Confirmed" ["Cancelled", "Confirmed"]
        [{ train_id := "T1", total_seats := 5, available_seats := 5 }]).map
        Train.available_seats = [4]) ∧
    update_train_seats
        (.updateRow
          { pnr := "B1", passenger_id := "p1", train_id := "T1", fare_id := "F1"
            fare_class := "Sleeper", seat_no := "S10", booking_status := "Confirmed" })
        { pnr := "B1", passenger_id := "p1", train_id := "T1", fare_id := "F1"
          fare_class := "Sleeper", seat_no := "S10", booking_status := "Confirmed" }
        [{ train_id := "T1", total_seats := 5, available_seats := 5 }]
      = [{ train_id := "T1", total_seats := 5, available_seats := 5 }] := by
  have h := net_seat_effect_edge_counting
    { pnr := "B1", passenger_id := "p1", train_id := "T1", fare_id := "F1"
      fare_class := "Sleeper", seat_no := "S10", booking_status := "Confirmed" }
    { train_id := "T1", total_seats := 5, available_seats := 5 }
    "Confirmed" ["Cancelled", "Confirmed"] rfl
  constructor
  · have h1 := h.1
    simpa [intoConfirmedCount, intoConfirmedUpdates, confirmedToCancelledCount] using h1
  · exact h.2
      { pnr := "B1", passenger_id := "p1", train_id := "T1", fare_id := "F1"
        fare_class := "Sleeper", seat_no := "S10", booking_status := "Confirmed" }
      "Confirmed"
      [{ train_id := "T1", total_seats := 5, available_seats := 5 }]

theorem booking_set_status_self (b : Booking) (s : String) (h : b.booking_status = s) :
    { b with booking_status := s } = b := by
  cases b
  simp_all

theorem updateBookingRows_status (pnr0 s : String) :
    ∀ (bs : List Booking) (trains : List Train) (b2 : Booking),
      b2 ∈ (updateBookingRows pnr0 s bs trains).1 → b2.pnr = pnr0 →
      b2.booking_status = s := by
  intro bs
  induction bs with
  | nil =>
      intro trains b2 h
      simp [updateBookingRows] at h
  | cons b rest ih =>
      intro trains b2 hmem hpnr
      by_cases hb : b.pnr = pnr0
      · simp only [updateBookingRows, if_pos hb] at hmem
        rcases List.mem_cons.mp hmem with h1 | h1
        · subst h1
          rfl
        · exact ih _ b2 h1 hpnr
      · simp only [updateBookingRows, if_neg hb] at hmem
        rcases List.mem_cons.mp hmem with h1 | h1
        · subst h1
          exact absurd hpnr hb
        · exact ih _ b2 h1 hpnr

theorem updateBookingRows_no_match (pnr0 s : String) :
    ∀ (bs : List Booking) (trains : List Train), (∀ b ∈ bs, b.pnr ≠ pnr0) →
      updateBookingRows pnr0 s bs trains = (bs, trains) := by
  intro bs
  induction bs with
  | nil =>
      intro trains h
      rfl
  | cons b rest ih =>
      intro trains h
      have hb : b.pnr ≠ pnr0 := h b (by simp)
      simp only [updateBookingRows, if_neg hb]
      rw [ih trains (fun b2 hb2 => h b2 (by simp [hb2]))]

theorem updateBookingRows_already_cancelled (pnr0 : String) :
    ∀ (bs : List Booking) (trains : List Train),
      (∀ b ∈ bs, b.pnr = pnr0 → b.booking_status = "Cancelled") →
      updateBookingRows pnr0 "Cancelled" bs trains = (bs, trains) := by
  intro bs
  induction bs with
  | nil =>
      intro trains h
      rfl
  | cons b rest ih =>
      intro trains h
      by_cases hb : b.pnr = pnr0
      · have hst : b.booking_status = "Cancelled" := h b (by simp) hb
        simp only [updateBookingRows, if_pos hb]
        rw [booking_set_status_self b "Cancelled" hst]
        have htr : update_train_seats (.updateRow b) b trains = trains := by
          simp [update_train_seats, hst]
        rw [htr, ih trains (fun b2 hb2 hp => h b2 (by simp [hb2]) hp)]
      · simp only [updateBookingRows, if_neg hb]
        rw [ih trains (fun b2 hb2 hp => h b2 (by simp [hb2]) hp)]

/-- C5: when step 1 of `cancelBooking` (the status update) succeeds and
step 2 (the cancellation insert) fails, the call propagates the typed
error of step 2 unchanged (no retry, not swallowed), every booking row
with this PNR is left in status Cancelled, and no cancellation record
exists for the PNR — no compensating rollback is performed. -/
theorem cancelBooking_partial_failure (pnr0 : String) (amount : ℚ) (st : DB) (e : SbError)
    (hclean : ∀ c ∈ st.cancellations, c.pnr ≠ pnr0) :
    ((cancelBooking pnr0 amount none (some e) st).2 = Except.error e) ∧
    (∀ b2 ∈ (cancelBooking pnr0 amount none (some e) st).1.bookings,
      b2.pnr = pnr0 → b2.booking_status = "Cancelled") ∧
    ((cancelBooking pnr0 amount none (some e) st).1.cancellations = st.cancellations) ∧
    (∀ c ∈ (cancelBooking pnr0 amount none (some e) st).1.cancellations, c.pnr ≠ pnr0) := by
  refine ⟨rfl, ?_, rfl, ?_⟩
  · intro b2 hmem hpnr
    exact updateBookingRows_status pnr0 "Cancelled" st.bookings st.trains b2 hmem hpnr
  · exact hclean

/-- Witness for C5 on a database holding one Confirmed booking "P1" and
no cancellation records. -/
theorem cancelBooking_partial_failure_witness :
    ((cancelBooking "P1" 100 none (some { message := "insert failed" })
        { trains := [{ train_id := "T1", total_seats := 2, available_seats := 1 }]
          fares := [], passengers := []
          bookings := [{ pnr := "P1", passenger_id := "p1", train_id := "T1", fare_id := "F1"
                         fare_class := "Sleeper", seat_no := "S10"
                         booking_status := "Confirmed" }]
          payments := [], cancellations := [], admin := none, nextId := 0 }).2
      = Except.error { message := "insert failed" }) ∧
    (∀ b2 ∈ (cancelBooking "P1" 100 none (some { message := "insert failed" })
        { trains := [{ train_id := "T1", total_seats := 2, available_seats := 1 }]
          fares := [], passengers := []
          bookings := [{ pnr := "P1", passenger_id := "p1", train_id := "T1", fare_id := "F1"
                         fare_class := "Sleeper", seat_no := "S10"
                         booking_status := "Confirmed" }]
          payments := [], cancellations := [], admin := none, nextId := 0 }).1.bookings,
      b2.pnr = "P1" → b2.booking_status = "Cancelled") ∧
    ((cancelBooking "P1" 100 none (some { message := "insert failed" })
        { trains := [{ train_id := "T1", total_seats := 2, available_seats := 1 }]
          fares := [], passengers := []
          bookings := [{ pnr := "P1", passenger_id := "p1", train_id := "T1", fare_id := "F1"
                         fare_class := "Sleeper", seat_no := "S10"
                         booking_status := "Confirmed" }]
          payments := [], cancellations := [], admin := none, nextId := 0 }).1.cancellations
      = []) := by
  have h := cancelBooking_partial_failure "P1" 100
    { trains := [{ train_id := "T1", total_seats := 2, available_seats := 1 }]
      fares := [], passengers := []
      bookings := [{ pnr := "P1", passenger_id := "p1", train_id := "T1", fare_id := "F1"
                     fare_class := "Sleeper", seat_no := "S10"
                     booking_status := "Confirmed" }]
      payments := [], cancellations := [], admin := none, nextId := 0 }
    { message := "insert failed" } (by simp)
  exact ⟨h.1, h.2.1, h.2.2.1⟩

/-- C8: `cancelBooking` on a PNR that matches no booking row does not
fail: the status update touches zero rows (bookings and trains are
unchanged), yet a Processed cancellation record with `refund_amount =
0.9 × amount` is still appended, the revenue-reversal trigger still
fires on it, and the call returns successfully. -/
theorem cancelBooking_missing_pnr (pnr0 : String) (amount : ℚ) (st : DB)
    (hmiss : ∀ b ∈ st.bookings, b.pnr ≠ pnr0) :
    ((cancelBooking pnr0 amount none none st).2 = Except.ok ()) ∧
    ((cancelBooking pnr0 amount none none st).1.bookings = st.bookings) ∧
    ((cancelBooking pnr0 amount none none st).1.trains = st.trains) ∧
    ((cancelBooking pnr0 amount none none st).1.cancellations
      = st.cancellations
          ++ [{ pnr := pnr0, refund_amount := amount * (9 / 10), status := "Processed" }]) ∧
    ((cancelBooking pnr0 amount none none st).1.admin
      = reverseRevenue (amount * (9 / 10)) st.admin) := by
  have hupd := updateBookingRows_no_match pnr0 "Cancelled" st.bookings st.trains hmiss
  refine ⟨rfl, ?_, ?_, ?_, ?_⟩
  · simp [cancelBooking, updateBookingStatus, hupd]
  · simp [cancelBooking, updateBookingStatus, hupd]
  · simp [cancelBooking, updateBookingStatus]
  · simp [cancelBooking, updateBookingStatus, update_revenue_on_refund]

/-- Witness for C8: cancelling the unknown PNR "P9" against a database
with no bookings and a revenue balance of 100 succeeds and reverses
45. -/
theorem cancelBooking_missing_pnr_witness :
    ((cancelBooking "P9" 50 none none
        { trains := [], fares := [], passengers := [], bookings := [], payments := []
          cancellations := []
          admin := some { username := "admin", password := "admin123", total_revenue := some 100 }
          nextId := 0 }).2 = Except.ok ()) ∧
    ((cancelBooking "P9" 50 none none
        { trains := [], fares := [], passengers := [], bookings := [], payments := []
          cancellations := []
          admin := some { username := "admin", password := "admin123", total_revenue := some 100 }
          nextId := 0 }).1.cancellations
      = [{ pnr := "P9", refund_amount := 50 * (9 / 10), status := "Processed" }]) ∧
    ((cancelBooking "P9" 50 none none
        { trains := [], fares := [], passengers := [], bookings := [], payments := []
          cancellations := []
          admin := some { username := "admin", password := "admin123", total_revenue := some 100 }
          nextId := 0 }).1.admin
      = reverseRevenue (50 * (9 / 10))
          (some { username := "admin", password := "admin123", total_revenue := some 100 })) := by
  have h := cancelBooking_missing_pnr "P9" 50
    { trains := [], fares := [], passengers := [], bookings := [], payments := []
      cancellations := []
      admin := some { username := "admin", password := "admin123", total_revenue := some 100 }
      nextId := 0 } (by simp)
  exact ⟨h.1, by simpa using h.2.2.2.1, h.2.2.2.2⟩

/-- C9: `cancelBooking` is not idempotent.  When every booking row with
this PNR is already Cancelled, a repeated call leaves `available_seats`
and the booking rows unchanged (Cancelled→Cancelled is not a tracked
edge), yet appends one more Processed cancellation record for the PNR —
making at least two — and fires one more guarded revenue reversal of
`0.9 × amount`. -/
theorem cancelBooking_not_idempotent (pnr0 : String) (amount : ℚ) (st : DB)
    (hall : ∀ b ∈ st.bookings, b.pnr = pnr0 → b.booking_status = "Cancelled")
    (_hex : ∃ b ∈ st.bookings, b.pnr = pnr0)
    (hprev : 1 ≤ st.cancellations.countP (fun c => c.pnr == pnr0)) :
    ((cancelBooking pnr0 amount none none st).1.trains = st.trains) ∧
    ((cancelBooking pnr0 amount none none st).1.bookings = st.bookings) ∧
    ((cancelBooking pnr0 amount none none st).1.cancellations.countP (fun c => c.pnr == pnr0)
      = st.cancellations.countP (fun c => c.pnr == pnr0) + 1) ∧
    (2 ≤ (cancelBooking pnr0 amount none none st).1.cancellations.countP
          (fun c => c.pnr == pnr0)) ∧
    ((cancelBooking pnr0 amount none none st).1.admin
      = reverseRevenue (amount * (9 / 10)) st.admin) := by
  have hupd := updateBookingRows_already_cancelled pnr0 st.bookings st.trains hall
  have hcount : (cancelBooking pnr0 amount none none st).1.cancellations.countP
      (fun c => c.pnr == pnr0) = st.cancellations.countP (fun c => c.pnr == pnr0) + 1 := by
    simp [cancelBooking, updateBookingStatus, List.countP_append]
  refine ⟨?_, ?_, hcount, ?_, ?_⟩
  · simp [cancelBooking, updateBookingStatus, hupd]
  · simp [cancelBooking, updateBookingStatus, hupd]
  · omega
  · simp [cancelBooking, updateBookingStatus, update_revenue_on_refund]

/-- Witness for C9: a second cancellation of the already-Cancelled
booking "P1" against a balance of 100 leaves the train untouched and
stacks a second Processed record. -/
theorem cancelBooking_not_idempotent_witness :
    ((cancelBooking "P1" 50 none none
        { trains := [{ train_id := "T1", total_seats := 2, available_seats := 2 }]
          fares := [], passengers := []
          bookings := [{ pnr := "P1", passenger_id := "p1", train_id := "T1", fare_id := "F1"
                         fare_class := "Sleeper", seat_no := "S10"
                         booking_status := "Cancelled" }]
          payments := []
          cancellations := [{ pnr := "P1", refund_amount := 45, status := "Processed" }]
          admin := some { username := "admin", password := "admin123", total_revenue := some 100 }
          nextId := 0 }).1.trains
      = [{ train_id := "T1", total_seats := 2, available_seats := 2 }]) ∧
    (2 ≤ (cancelBooking "P1" 50 none none
        { trains := [{ train_id := "T1", total_seats := 2, available_seats := 2 }]
          fares := [], passengers := []
          bookings := [{ pnr := "P1", passenger_id := "p1", train_id := "T1", fare_id := "F1"
                         fare_class := "Sleeper", seat_no := "S10"
                         booking_status := "Cancelled" }]
          payments := []
          cancellations := [{ pnr := "P1", refund_amount := 45, status := "Processed" }]
          admin := some { username := "admin", password := "admin123", total_revenue := some 100 }
          nextId := 0 }).1.cancellations.countP (fun c => c.pnr == "P1")) ∧
    ((cancelBooking "P1" 50 none none
        { trains := [{ train_id := "T1", total_seats := 2, available_seats := 2 }]
          fares := [], passengers := []
          bookings := [{ pnr := "P1", passenger_id := "p1", train_id := "T1", fare_id := "F1"
                         fare_class := "Sleeper", seat_no := "S10"
                         booking_status := "Cancelled" }]
          payments := []
          cancellations := [{ pnr := "P1", refund_amount := 45, status := "Processed" }]
          admin := some { username := "admin", password := "admin123", total_revenue := some 100 }
          nextId := 0 }).1.admin
      = reverseRevenue (50 * (9 / 10))
          (some { username := "admin", password := "admin123", total_revenue := some 100 })) := by
  have h := cancelBooking_not_idempotent "P1" 50
    { trains := [{ train_id := "T1", total_seats := 2, available_seats := 2 }]
      fares := [], passengers := []
      bookings := [{ pnr := "P1", passenger_id := "p1", train_id := "T1", fare_id := "F1"
                     fare_class := "Sleeper", seat_no := "S10"
                     booking_status := "Cancelled" }]
      payments := []
      cancellations := [{ pnr := "P1", refund_amount := 45, status := "Processed" }]
      admin := some { username := "admin", password := "admin123", total_revenue := some 100 }
      nextId := 0 }
    (by simp) (by simp) (by simp)
  exact ⟨h.1, h.2.2.2.1, h.2.2.2.2⟩

theorem insertPassengers_fields (ps : List PassengerInput) :
    ∀ st : DB,
      ((insertPassengers ps st).1.passengers.length = st.passengers.length + ps.length) ∧
      ((insertPassengers ps st).2.length = ps.length) ∧
      ((insertPassengers ps st).1.fares = st.fares) ∧
      ((insertPassengers ps st).1.bookings = st.bookings) ∧
      ((insertPassengers ps st).1.payments = st.payments) ∧
      ((insertPassengers ps st).1.admin = st.admin) := by
  induction ps with
  | nil =>
      intro st
      simp [insertPassengers]
  | cons p rest ih =>
      intro st
      obtain ⟨h1, h2, h3, h4, h5, h6⟩ := ih
        { st with
          passengers := st.passengers ++
            [{ passenger_id := toString st.nextId, name := p.name, age := p.age
               gender := p.gender, contact := p.contact }]
          nextId := st.nextId + 1 }
      simp only [List.length_append, List.length_cons, List.length_nil] at h1
      simp only [insertPassengers, List.length_cons]
      exact ⟨by omega, by omega, h3, h4, h5, h6⟩

theorem insertBookingRows_shape (trainId fareId fareClass : String) (seatGen : Nat → String) :
    ∀ (ids : List String) (i : Nat) (st : DB),
      ∃ rows : List Booking,
        ((insertBookingRows trainId fareId fareClass seatGen ids i st).1.bookings
          = st.bookings ++ rows) ∧
        (rows.map Booking.pnr
          = (insertBookingRows trainId fareId fareClass seatGen ids i st).2) ∧
        (rows.length = ids.length) ∧
        (∀ row ∈ rows, row.fare_id = fareId ∧ row.booking_status = "Confirmed") ∧
        ((insertBookingRows trainId fareId fareClass seatGen ids i st).1.passengers
          = st.passengers) ∧
        ((insertBookingRows trainId fareId fareClass seatGen ids i st).1.payments
          = st.payments) ∧
        ((insertBookingRows trainId fareId fareClass seatGen ids i st).1.fares = st.fares) ∧
        ((insertBookingRows trainId fareId fareClass seatGen ids i st).1.admin = st.admin) := by
  intro ids
  induction ids with
  | nil =>
      intro i st
      exact ⟨[], by simp [insertBookingRows], by simp [insertBookingRows], rfl,
        by simp, by simp [insertBookingRows], by simp [insertBookingRows],
        by simp [insertBookingRows], by simp [insertBookingRows]⟩
  | cons pid rest ih =>
      intro i st
      obtain ⟨rows, hbk, hpnr, hlen, hfare, hpass, hpay, hfares, hadmin⟩ := ih (i + 1)
        { st with
          bookings := st.bookings ++
            [{ pnr := "PNR" ++ toString st.nextId, passenger_id := pid, train_id := trainId
               fare_id := fareId, fare_class := fareClass
               seat_no := fareClass.take 1 ++ seatGen i, booking_status := "Confirmed" }]
          trains := update_train_seats .insertRow
            { pnr := "PNR" ++ toString st.nextId, passenger_id := pid, train_id := trainId
              fare_id := fareId, fare_class := fareClass
              seat_no := fareClass.take 1 ++ seatGen i, booking_status := "Confirmed" }
            st.trains
          nextId := st.nextId + 1 }
      refine ⟨{ pnr := "PNR" ++ toString st.nextId, passenger_id := pid, train_id := trainId
                fare_id := fareId, fare_class := fareClass
                seat_no := fareClass.take 1 ++ seatGen i
                booking_status := "Confirmed" } :: rows, ?_, ?_, ?_, ?_, ?_, ?_, ?_, ?_⟩
      · simp only [insertBookingRows, insertBooking]
        rw [hbk]
        simp
      · simp only [insertBookingRows, insertBooking, List.map_cons]
        rw [hpnr]
      · simp [hlen]
      · intro row hrow
        rcases List.mem_cons.mp hrow with h1 | h1
        · subst h1
          exact ⟨rfl, rfl⟩
        · exact hfare row h1
      · simp only [insertBookingRows, insertBooking]
        exact hpass
      · simp only [insertBookingRows, insertBooking]
        exact hpay
      · simp only [insertBookingRows, insertBooking]
        exact hfares
      · simp only [insertBookingRows, insertBooking]
        exact hadmin

theorem resolveFare_fares_only (trainId fareClass : String) (st1 st0 : DB)
    (h : st1.fares = st0.fares) :
    resolveFare trainId fareClass st1 = resolveFare trainId fareClass st0 := by
  simp only [resolveFare, h]

/-- C6: every successful `createBooking` call with `n ≥ 1` passenger
records creates exactly `n` passenger rows and exactly `n` booking rows
(appended after the pre-existing ones), every created booking row
carries the single resolved fare and status Confirmed, exactly one
payment row is appended — referencing only the first created booking's
PNR, for the full total amount, with status Successful — and the
returned value is the first created PNR. -/
theorem createBooking_shape (passengerData : List PassengerInput)
    (trainId fareClass paymentMethod : String) (totalAmount : ℚ)
    (seatGen : Nat → String) (st st2 : DB) (ret : String)
    (hn : 1 ≤ passengerData.length)
    (h : createBooking passengerData trainId fareClass paymentMethod totalAmount seatGen st
        = Except.ok (st2, ret)) :
    (st2.passengers.length = st.passengers.length + passengerData.length) ∧
    (st2.bookings.length = st.bookings.length + passengerData.length) ∧
    (st2.bookings.take st.bookings.length = st.bookings) ∧
    (∀ row ∈ st2.bookings.drop st.bookings.length,
      resolveFare trainId fareClass st = Except.ok row.fare_id ∧
      row.booking_status = "Confirmed") ∧
    ((st2.bookings.drop st.bookings.length).head?.map Booking.pnr = some ret) ∧
    (st2.payments = st.payments
      ++ [{ pnr := ret, amount := totalAmount, payment_method := paymentMethod
            status := "Successful" }]) := by
  obtain ⟨hp1, hp2, hp3, hp4, hp5, hp6⟩ := insertPassengers_fields passengerData st
  simp only [createBooking] at h
  cases hf : resolveFare trainId fareClass (insertPassengers passengerData st).1 with
  | error e =>
      rw [hf] at h
      simp at h
  | ok fid =>
      rw [hf] at h
      simp only [Except.ok.injEq, Prod.mk.injEq] at h
      obtain ⟨hst2, hret⟩ := h
      obtain ⟨rows, hbk, hpnr, hlen, hfare, hpass, hpay, hfares, hadmin⟩ :=
        insertBookingRows_shape trainId fid fareClass seatGen
          (insertPassengers passengerData st).2 0 (insertPassengers passengerData st).1
      have hfst : resolveFare trainId fareClass st = Except.ok fid := by
        rw [← resolveFare_fares_only trainId fareClass (insertPassengers passengerData st).1
          st hp3]
        exact hf
      have hrows_len : rows.length = passengerData.length := by
        rw [hlen, hp2]
      have hbk2 : (insertBookingRows trainId fid fareClass seatGen
          (insertPassengers passengerData st).2 0
          (insertPassengers passengerData st).1).1.bookings = st.bookings ++ rows := by
        rw [hbk, hp4]
      obtain ⟨row0, rows', hrows⟩ : ∃ row0 rows', rows = row0 :: rows' := by
        cases rows with
        | nil => simp at hrows_len; omega
        | cons a l => exact ⟨a, l, rfl⟩
      subst hst2
      refine ⟨?_, ?_, ?_, ?_, ?_, ?_⟩
      · simp [hpass, hp1]
      · simp only [hbk2]
        simp [hrows_len]
      · simp only [hbk2, List.take_left]
      · intro row hrow
        simp only [hbk2, List.drop_left] at hrow
        obtain ⟨hfid, hconf⟩ := hfare row hrow
        exact ⟨by rw [hfid, hfst], hconf⟩
      · simp only [hbk2, List.drop_left, hrows, List.head?_cons, Option.map_some]
        subst hret
        rw [← hpnr, hrows]
        simp
      · subst hret
        simp only [hpay, hp5]

/-- Concrete passenger detail record used to exercise `createBooking`. -/
def wPassenger : PassengerInput := { name := "Asha", age := 30, gender := "F", contact := "a@x" }

/-- Concrete database with one train and one fare, used to exercise
`createBooking`. -/
def wDb : DB :=
  { trains := [{ train_id := "T1", total_seats := 5, available_seats := 5 }]
    fares := [{ fare_id := "F1", train_id := "T1", fare_class := "AC 2 Tier", fare_amount := 800 }]
    passengers := [], bookings := [], payments := [], cancellations := []
    admin := none, nextId := 0 }

/-- Concrete seat-number supply used to exercise `createBooking`. -/
def wSeat : Nat → String := fun i => toString (10 + i)

/-- Result of the concrete `createBooking` call (two passengers, class
"AC 2 Tier", total 100). -/
def wOut : DB × String :=
  (createBooking [wPassenger, wPassenger] "T1" "AC 2 Tier" "card" 100 wSeat wDb).toOption.getD
    (wDb, "")

/-- Witness for C6: the concrete two-passenger booking call creates two
passenger rows, two Confirmed booking rows on the one resolved fare, one
Successful payment on the first PNR, and returns that PNR. -/
theorem createBooking_shape_witness :
    (wOut.1.passengers.length = wDb.passengers.length + 2) ∧
    (wOut.1.bookings.length = wDb.bookings.length + 2) ∧
    (wOut.1.bookings.take wDb.bookings.length = wDb.bookings) ∧
    (∀ row ∈ wOut.1.bookings.drop wDb.bookings.length,
      resolveFare "T1" "AC 2 Tier" wDb = Except.ok row.fare_id ∧
      row.booking_status = "Confirmed") ∧
    ((wOut.1.bookings.drop wDb.bookings.length).head?.map Booking.pnr = some wOut.2) ∧
    (wOut.1.payments = wDb.payments
      ++ [{ pnr := wOut.2, amount := 100, payment_method := "card"
            status := "Successful" }]) := by
  have h := createBooking_shape [wPassenger, wPassenger] "T1" "AC 2 Tier" "card" 100 wSeat wDb
    wOut.1 wOut.2 (by decide) (by rfl)
  exact h
